import Mathlib

/-!
Shallow embedding of the autonomous-VJ audio/visual core of this repository
(`src/vj/macro_state_engine.rs`, `src/vj/pattern_morpher.rs`,
`src/vj/bpm_detector.rs`, `src/audio/analyzer.rs`, `src/audio/mod.rs`,
`src/params/...`), together with proofs about the claims of its
specification.

Modelling conventions:
- `f32` values are embedded as `ℚ` with exact arithmetic; `Instant` values
  are embedded as `ℚ` timestamps in seconds, and every place the Rust code
  calls `Instant::now()` inside one engine call receives the same injected
  clock value `now` (the code reads the wall clock several times per call;
  the readings differ by nanoseconds, which no claim depends on).
- `Duration` comparisons become `ℚ` comparisons; `t.elapsed()` becomes
  `now - t`.
- `HashMap<String, Instant>` becomes an association list with
  insert-replaces-key semantics (`hmInsert` / `hmFind?`); iteration order of
  a Rust `HashMap` is unspecified, and no claim below depends on it.
- Rust operations that can panic (indexing `[0]` into a possibly-empty
  vector, `% len` with `len = 0`) are embedded as `Option`-returning
  functions which return `none` exactly on the panicking inputs.
- The two irrational `f32` primitives used by the audio analyzer,
  `sqrt` (in `calculate_energy_variance`) and `powf(·, 0.7)` (in
  `apply_dynamics`), are not rational functions; the embedding takes them as
  explicit function parameters `sq pw : ℚ → ℚ`, and theorems quantify over
  all functions satisfying properties (`SqrtModel`, `PowModel`) that the
  real primitives satisfy.
- The external FFT (`rustfft`, a third-party crate, not part of this
  repository) and the trigonometric Hann windowing feeding it are abstracted
  by quantifying over the resulting magnitude spectrum (a list of
  nonnegative rationals); every actual spectrum is such a list.
- Wall-clock-derived randomness (`DefaultHasher` over `Instant::now()`) is
  abstracted by quantifying over the drawn value (`randVal` for the
  `check_random_transition` draw, `hashVal` for the selection index draw);
  every actual draw is covered.
-/

set_option autoImplicit false

/-- PatternType enum from `src/params/config/pattern_type.rs` (19 variants,
declaration order preserved). -/
inductive PatternType where
  | Plasma | Waves | Ripples | Vortex | Noise | Geometric | Voronoi
  | Truchet | Hexagonal | Interference | Fractal | Glitch | Spiral
  | Rings | Grid | Diamonds | Sphere | Octgrams | WarpedFbm
  deriving DecidableEq

/-- PaletteType enum from `src/params/palette_type.rs` (16 variants). -/
inductive PaletteType where
  | Standard | Blocks | Circles | Smooth | Braille | Geometric | Mixed
  | Dots | Extended | Simple | Shades | Lines | Triangles | Arrows
  | Powerline | BoxDraw
  deriving DecidableEq

/-- ColorMode enum from `src/params/color_mode.rs` (10 variants). -/
inductive ColorMode where
  | Rainbow | Monochrome | Duotone | Warm | Cool | Neon | Pastel
  | Cyberpunk | Warped | Chromatic
  deriving DecidableEq

/-- MusicMood enum from `macro_state_engine.rs`. -/
inductive MusicMood where
  | Ambient | Energetic | Melodic | Rhythmic | Chaotic
  deriving DecidableEq

/-- TransitionTrigger enum from `macro_state_engine.rs`. -/
inductive TransitionTrigger where
  | BeatDetected | EnergyChange | TimeBased | MoodChange | Random
  deriving DecidableEq

/-- The string `format!("{:?}", pattern)` produces for each `PatternType`
variant (the Rust `Debug` derive prints the variant identifier). -/
def fmtPattern : PatternType → String
  | .Plasma => "Plasma" | .Waves => "Waves" | .Ripples => "Ripples"
  | .Vortex => "Vortex" | .Noise => "Noise" | .Geometric => "Geometric"
  | .Voronoi => "Voronoi" | .Truchet => "Truchet" | .Hexagonal => "Hexagonal"
  | .Interference => "Interference" | .Fractal => "Fractal"
  | .Glitch => "Glitch" | .Spiral => "Spiral" | .Rings => "Rings"
  | .Grid => "Grid" | .Diamonds => "Diamonds" | .Sphere => "Sphere"
  | .Octgrams => "Octgrams" | .WarpedFbm => "WarpedFbm"

/-- The string `format!("{:?}", palette)` produces for each `PaletteType`
variant. -/
def fmtPalette : PaletteType → String
  | .Standard => "Standard" | .Blocks => "Blocks" | .Circles => "Circles"
  | .Smooth => "Smooth" | .Braille => "Braille" | .Geometric => "Geometric"
  | .Mixed => "Mixed" | .Dots => "Dots" | .Extended => "Extended"
  | .Simple => "Simple" | .Shades => "Shades" | .Lines => "Lines"
  | .Triangles => "Triangles" | .Arrows => "Arrows"
  | .Powerline => "Powerline" | .BoxDraw => "BoxDraw"

/-- Association-list model of `HashMap<String, Instant>` lookup. -/
def hmFind? : List (String × ℚ) → String → Option ℚ
  | [], _ => none
  | (k, v) :: rest, key => if k = key then some v else hmFind? rest key

/-- Association-list model of `HashMap<String, Instant>::insert` (replaces an
existing binding of the key). -/
def hmInsert (m : List (String × ℚ)) (k : String) (v : ℚ) :
    List (String × ℚ) :=
  (k, v) :: m.filter (fun kv => kv.1 ≠ k)

/-- Rust `f32::clamp(lo, hi)`. -/
def rclamp (x lo hi : ℚ) : ℚ := min (max x lo) hi

/-- ShaderParams struct from `src/params/config/shader_params.rs`; `f32`
fields as `ℚ`, `u32` fields as `ℕ`. -/
structure ShaderParams where
  time : ℚ
  resolution_width : ℕ
  resolution_height : ℕ
  frequency : ℚ
  amplitude : ℚ
  speed : ℚ
  color_shift : ℚ
  scale : ℚ
  octaves : ℕ
  noise_strength : ℚ
  distort_amplitude : ℚ
  noise_scale : ℚ
  z_rate : ℚ
  brightness : ℚ
  contrast : ℚ
  hue : ℚ
  saturation : ℚ
  gamma : ℚ
  vignette : ℚ
  vignette_softness : ℚ
  glyph_sharpness : ℚ
  background_tint_r : ℚ
  background_tint_g : ℚ
  background_tint_b : ℚ
  palette : PaletteType
  color_mode : ColorMode
  pattern_type : PatternType
  audio_enabled : Bool
  bass_influence : ℚ
  mid_influence : ℚ
  treble_influence : ℚ
  effect_time : ℚ
  effect_type : ℕ
  beat_distortion_time : ℚ
  beat_distortion_strength : ℚ
  beat_zoom_strength : ℚ

/-- `ShaderParams::default()`. -/
def ShaderParams.default : ShaderParams where
  time := 0
  resolution_width := 80
  resolution_height := 24
  frequency := 10
  amplitude := 1
  speed := 1/2
  color_shift := 0
  scale := 1
  octaves := 4
  noise_strength := 15/100
  distort_amplitude := 1/2
  noise_scale := 5/1000
  z_rate := 2/100
  brightness := 12/10
  contrast := 1
  hue := 0
  saturation := 1
  gamma := 1
  vignette := 3/10
  vignette_softness := 1/2
  glyph_sharpness := 1
  background_tint_r := 0
  background_tint_g := 0
  background_tint_b := 0
  palette := .Simple
  color_mode := .Chromatic
  pattern_type := .Plasma
  audio_enabled := false
  bass_influence := 1/2
  mid_influence := 3/10
  treble_influence := 2/10
  effect_time := -100
  effect_type := 0
  beat_distortion_time := -100
  beat_distortion_strength := 6/10
  beat_zoom_strength := 1/2

/-- MorphType enum from `pattern_morpher.rs`. -/
inductive MorphType where
  | Linear | Smooth | BeatSync | EnergyDriven | TempoSync
  deriving DecidableEq

/-- Mutable state of `PatternMorpher` (fields that `update_morph` /
`get_morphed_params` read or write; the interpolation cache is written by
`precalculate_interpolation` but never consulted by either, so it is
omitted). -/
structure MorpherState where
  morphing : Bool
  morph_start_time : ℚ
  morph_duration : ℚ
  morph_progress : ℚ
  source_pattern : PatternType
  target_pattern : PatternType
  source_params : ShaderParams
  target_params : ShaderParams
  current_morph_type : MorphType

namespace PatternMorpher

/-- `PatternMorpher::smooth_easing` (cubic ease-in-out). -/
def smooth_easing (t : ℚ) : ℚ :=
  if t < 1/2 then 4 * t * t * t
  else
    let f := 2 * t - 2
    1 + f * f * f / 2

/-- `PatternMorpher::beat_sync_morphing`. -/
def beat_sync_morphing (base_progress : ℚ) (beat_detected : Bool) : ℚ :=
  if beat_detected then base_progress * (12/10) else base_progress * (8/10)

/-- `PatternMorpher::energy_driven_morphing`. -/
def energy_driven_morphing (base_progress energy : ℚ) : ℚ :=
  base_progress * (1/2 + energy * 1)

/-- `PatternMorpher::tempo_sync_morphing`. -/
def tempo_sync_morphing (base_progress bpm : ℚ) : ℚ :=
  base_progress * rclamp (bpm / 120) (1/2) 2

/-- `PatternMorpher::interpolate` (plain linear interpolation). -/
def interpolate (from_ to_ t : ℚ) : ℚ := from_ + (to_ - from_) * t

/-- `PatternMorpher::interpolate_hue` (hue interpolation with 0–360
wraparound handling). -/
def interpolate_hue (from_ to_ t : ℚ) : ℚ :=
  let diff := to_ - from_
  if diff > 180 then from_ + (diff - 360) * t
  else if diff < -180 then from_ + (diff + 360) * t
  else from_ + diff * t

/-- `PatternMorpher::update_morph`, with the wall clock injected as `now`.
Returns the reported progress (the Rust `Ok(...)` payload; the function
never returns `Err`) together with the updated state. -/
def update_morph (s : MorpherState) (now bpm energy : ℚ)
    (beat_detected : Bool) : ℚ × MorpherState :=
  if ¬ s.morphing then (1, s)
  else
    let elapsed := now - s.morph_start_time
    let base_progress := elapsed / s.morph_duration
    let adjusted_progress :=
      match s.current_morph_type with
      | .Linear => base_progress
      | .Smooth => smooth_easing base_progress
      | .BeatSync => beat_sync_morphing base_progress beat_detected
      | .EnergyDriven => energy_driven_morphing base_progress energy
      | .TempoSync => tempo_sync_morphing base_progress bpm
    let p := rclamp adjusted_progress 0 1
    if p ≥ 1 then
      (1, { s with morphing := false, morph_progress := 1 })
    else
      (p, { s with morph_progress := p })

/-- `PatternMorpher::get_morphed_params`. -/
def get_morphed_params (s : MorpherState) : ShaderParams :=
  if ¬ s.morphing then s.target_params
  else
    { s.source_params with
      frequency :=
        interpolate s.source_params.frequency s.target_params.frequency
          s.morph_progress
      amplitude :=
        interpolate s.source_params.amplitude s.target_params.amplitude
          s.morph_progress
      speed :=
        interpolate s.source_params.speed s.target_params.speed
          s.morph_progress
      scale :=
        interpolate s.source_params.scale s.target_params.scale
          s.morph_progress
      brightness :=
        interpolate s.source_params.brightness s.target_params.brightness
          s.morph_progress
      contrast :=
        interpolate s.source_params.contrast s.target_params.contrast
          s.morph_progress
      saturation :=
        interpolate s.source_params.saturation s.target_params.saturation
          s.morph_progress
      hue :=
        interpolate_hue s.source_params.hue s.target_params.hue
          s.morph_progress
      noise_strength :=
        interpolate s.source_params.noise_strength
          s.target_params.noise_strength s.morph_progress
      distort_amplitude :=
        interpolate s.source_params.distort_amplitude
          s.target_params.distort_amplitude s.morph_progress
      vignette :=
        interpolate s.source_params.vignette s.target_params.vignette
          s.morph_progress }

end PatternMorpher

/-- AudioFeatures struct from `src/audio/mod.rs`. -/
structure AudioFeatures where
  bass : ℚ
  mid : ℚ
  treble : ℚ
  overall : ℚ
  beat_strength : ℚ
  is_drop : Bool

/-- `AudioFeatures::default()` from `src/audio/mod.rs`: all fields zero /
false. -/
def AudioFeatures.default : AudioFeatures :=
  { bass := 0, mid := 0, treble := 0, overall := 0, beat_strength := 0,
    is_drop := false }

/-- Mutable state of `AudioAnalyzer` from `src/audio/analyzer.rs` (the
`FftPlanner` is a stateless plan cache of the external `rustfft` crate and
carries no semantics). -/
structure AnalyzerState where
  sample_rate : ℚ
  previous_bass : ℚ
  bass_history : List ℚ
  drop_cooldown : ℚ
  bass_peak : ℚ
  mid_peak : ℚ
  treble_peak : ℚ
  beat_pulse : ℚ
  energy_history : List ℚ

/-- `AudioAnalyzer::new(sample_rate)`. -/
def AnalyzerState.new (sample_rate : ℚ) : AnalyzerState :=
  { sample_rate := sample_rate, previous_bass := 0, bass_history := [],
    drop_cooldown := 0, bass_peak := 0, mid_peak := 0, treble_peak := 0,
    beat_pulse := 0, energy_history := [] }

/-- Rust `f as usize` for an `f32` value embedded as `ℚ`: truncation toward
zero, saturating at zero for negative values. -/
def ratToUsize (q : ℚ) : ℕ := (⌊q⌋).toNat

/-- `AudioAnalyzer::get_band_energy`, phrased over the list of magnitudes
`|c|` of the FFT buffer (the Rust code maps each complex bin to
`(re² + im²).sqrt()` and sums; here `mags` is that magnitude list, one entry
per FFT bin). -/
def get_band_energy (mags : List ℚ) (freq_min freq_max freq_resolution : ℚ) :
    ℚ :=
  let bin_min := ratToUsize (freq_min / freq_resolution)
  let bin_max := min (ratToUsize (freq_max / freq_resolution))
    (mags.length / 2)
  if bin_min ≥ bin_max then 0
  else
    let energy := ((mags.drop bin_min).take (bin_max - bin_min)).sum
    min (energy / ((bin_max - bin_min : ℕ) : ℚ)) 1

/-- `AudioAnalyzer::apply_envelope` (fast attack, slow release). -/
def apply_envelope (current_peak new_value attack_rate release_rate : ℚ) :
    ℚ :=
  if new_value > current_peak then
    current_peak * attack_rate + new_value * (1 - attack_rate)
  else
    current_peak * release_rate

/-- `AudioAnalyzer::apply_dynamics`; `pw` stands for the `f32` function
`x ↦ x.powf(0.7)` (irrational, hence a parameter; see `PowModel`). -/
def apply_dynamics (pw : ℚ → ℚ) (raw_value peak : ℚ) : ℚ :=
  if peak < 1/100 then raw_value
  else
    let ratio := raw_value / peak
    let expanded := pw ratio
    let transient_boost :=
      if ratio > 85/100 then 1 + (ratio - 85/100) * 2 else 1
    min (expanded * peak * transient_boost) 1

/-- `AudioAnalyzer::calculate_energy_variance`; `sq` stands for the `f32`
function `x ↦ x.sqrt()` (irrational, hence a parameter; see `SqrtModel`). -/
def calculate_energy_variance (sq : ℚ → ℚ) (energy_history : List ℚ) : ℚ :=
  if energy_history.length < 10 then 0
  else
    let n : ℚ := (energy_history.length : ℚ)
    let mean := energy_history.sum / n
    let variance :=
      (energy_history.map (fun x => (x - mean) * (x - mean))).sum / n
    min (sq variance) 1

/-- `AudioAnalyzer::analyze_with_fft`, phrased over the magnitude spectrum
`mags` produced by the external FFT from the (Hann-windowed) chunk. Returns
the features together with the updated analyzer state. -/
def analyze_with_fft (sq pw : ℚ → ℚ) (st : AnalyzerState) (mags : List ℚ)
    (delta_time : ℚ) : AudioFeatures × AnalyzerState :=
  let freq_resolution := st.sample_rate / (mags.length : ℚ)
  let bass_raw := get_band_energy mags 20 250 freq_resolution
  let mid_raw := get_band_energy mags 250 2000 freq_resolution
  let treble_raw := get_band_energy mags 2000 8000 freq_resolution
  let bass_peak := apply_envelope st.bass_peak bass_raw (98/100) (85/100)
  let mid_peak := apply_envelope st.mid_peak mid_raw (98/100) (85/100)
  let treble_peak :=
    apply_envelope st.treble_peak treble_raw (98/100) (85/100)
  let bass := apply_dynamics pw bass_raw bass_peak
  let mid := apply_dynamics pw mid_raw mid_peak
  let treble := apply_dynamics pw treble_raw treble_peak
  let overall := (bass + mid + treble) / 3
  let energy_history0 := st.energy_history ++ [overall]
  let energy_history1 :=
    if energy_history0.length > 60 then energy_history0.tail
    else energy_history0
  let energy_variance := calculate_energy_variance sq energy_history1
  let bass_diff := bass_raw - st.previous_bass
  let beat_strength0 := rclamp (bass_diff * 10) 0 1
  let beat_pulse0 := if beat_strength0 > 3/10 then 1 else st.beat_pulse
  let beat_pulse1 := beat_pulse0 * (85/100)
  let beat_strength := min (beat_strength0 + beat_pulse1 * (1/2)) 1
  let bass_history0 := st.bass_history ++ [bass_raw]
  let bass_history1 :=
    if bass_history0.length > 30 then bass_history0.tail else bass_history0
  let avg_bass := bass_history1.sum / ((bass_history1.length : ℕ) : ℚ)
  let dropPair :=
    if st.drop_cooldown ≤ 0 then
      let drop_detected :=
        bass_raw > avg_bass * 2 ∧ bass_diff > 1/10
      (decide drop_detected, if drop_detected then 1 else st.drop_cooldown)
    else (false, st.drop_cooldown - delta_time)
  let variance_multiplier := 1 + energy_variance * (1/2)
  ({ bass := bass * variance_multiplier,
     mid := mid * variance_multiplier,
     treble := treble * variance_multiplier,
     overall := overall * variance_multiplier,
     beat_strength := beat_strength,
     is_drop := dropPair.1 },
   { st with
     previous_bass := bass_raw,
     bass_history := bass_history1,
     drop_cooldown := dropPair.2,
     bass_peak := bass_peak,
     mid_peak := mid_peak,
     treble_peak := treble_peak,
     beat_pulse := beat_pulse1,
     energy_history := energy_history1 })

/-- `AudioAnalyzer::analyze` (with the `audio` cargo feature enabled, the
configuration the repository builds with). `spectrum` abstracts the
combination of the Hann windowing and the external `rustfft` transform: it
maps the raw sample chunk to the magnitude spectrum that
`analyze_with_fft` consumes. An empty chunk short-circuits to the default
features without touching the state, exactly as in the source. -/
def analyze (sq pw : ℚ → ℚ) (spectrum : List ℚ → List ℚ)
    (st : AnalyzerState) (samples : List ℚ) (delta_time : ℚ) :
    AudioFeatures × AnalyzerState :=
  if samples.isEmpty then (AudioFeatures.default, st)
  else analyze_with_fft sq pw st (spectrum samples) delta_time

/-- Properties of the real `f32` square root that the proofs rely on: it is
nonnegative on nonnegative inputs and exact on perfect squares. -/
def SqrtModel (f : ℚ → ℚ) : Prop :=
  (∀ x, 0 ≤ x → 0 ≤ f x) ∧ (∀ x, 0 ≤ x → f (x * x) = x)

/-- Property of the real `x ↦ x.powf(0.7)` that the proofs rely on: it is
nonnegative on nonnegative inputs. -/
def PowModel (f : ℚ → ℚ) : Prop := ∀ x, 0 ≤ x → 0 ≤ f x

/-- A computable rational function satisfying `SqrtModel`: the exact square
root on perfect rational squares (and a floor-based approximation
elsewhere, where `SqrtModel` does not constrain it). -/
def ratSqrt (q : ℚ) : ℚ :=
  if 0 ≤ q then ((Nat.sqrt q.num.toNat : ℚ) / (Nat.sqrt q.den : ℚ)) else 0

/-- Formalization of claim C3 exactly as stated: for every extractor state,
every chunk (represented by its magnitude spectrum, with the physically
realizable restrictions that magnitudes are nonnegative and the retained
beat pulse is nonnegative) and every delta-time, all numeric fields of the
returned `AudioFeatures` lie in `[0, 1]` — quantified over every pair of
primitive models the real `sqrt`/`powf` satisfy. -/
def claimC3 : Prop :=
  ∀ (sq pw : ℚ → ℚ), SqrtModel sq → PowModel pw →
    ∀ (st : AnalyzerState) (mags : List ℚ) (delta_time : ℚ),
      (∀ m ∈ mags, (0:ℚ) ≤ m) → 0 ≤ st.beat_pulse →
      (0 ≤ (analyze_with_fft sq pw st mags delta_time).1.bass ∧
        (analyze_with_fft sq pw st mags delta_time).1.bass ≤ 1) ∧
      (0 ≤ (analyze_with_fft sq pw st mags delta_time).1.mid ∧
        (analyze_with_fft sq pw st mags delta_time).1.mid ≤ 1) ∧
      (0 ≤ (analyze_with_fft sq pw st mags delta_time).1.treble ∧
        (analyze_with_fft sq pw st mags delta_time).1.treble ≤ 1) ∧
      (0 ≤ (analyze_with_fft sq pw st mags delta_time).1.overall ∧
        (analyze_with_fft sq pw st mags delta_time).1.overall ≤ 1) ∧
      (0 ≤ (analyze_with_fft sq pw st mags delta_time).1.beat_strength ∧
        (analyze_with_fft sq pw st mags delta_time).1.beat_strength ≤ 1)

/-- Concrete analyzer state refuting claim C3: the energy history holds
eleven values whose variance is exactly 4 (so the variance boost multiplier
is 1.5), the bass/mid peak envelopes are negative (so `apply_dynamics`
takes its `peak < 0.01` early-return branch and passes the raw band values
through), and the previous bass equals the incoming bass (so no beat or
drop fires). All values are exactly representable. -/
def c3CexState : AnalyzerState :=
  { sample_rate := 1024, previous_bass := 1, bass_history := [],
    drop_cooldown := 1, bass_peak := -1, mid_peak := -1, treble_peak := 0,
    beat_pulse := 0,
    energy_history :=
      [17/3, -7/3, -7/3, 5/3, 2/3, 2/3, 2/3, 2/3, 2/3, 2/3] }

/-- Concrete magnitude spectrum refuting claim C3: a flat all-ones spectrum
of 256 bins (realizable, e.g. by a unit impulse at the center of the Hann
window), which drives both the bass and mid bands to their clamped maximum
of 1. -/
def c3CexMags : List ℚ := List.replicate 256 1

/-- BPMResult struct from `src/vj/bpm_detector.rs`. -/
structure BPMResult where
  bpm : ℚ
  confidence : ℚ
  beat_detected : Bool
  tempo_stable : Bool

/-- Mutable state of `BPMDetector` from `src/vj/bpm_detector.rs`. The
`tempo_candidates` field of the Rust struct is initialized empty and never
read or written afterwards, so it is omitted. -/
structure BPMState where
  sample_rate : ℚ
  buffer_size : ℕ
  audio_buffer : List ℚ
  onset_threshold : ℚ
  onset_history : List ℚ
  last_onset_time : ℚ
  bpm_history : List ℚ
  current_bpm : ℚ
  confidence : ℚ
  tempo_stability_threshold : ℚ
  min_bpm : ℚ
  max_bpm : ℚ
  analysis_window : ℚ

/-- `BPMDetector::new(sample_rate)`, with the construction-time
`Instant::now()` injected as `now0`. `buffer_size` is
`(sample_rate * 0.1) as usize`. -/
def BPMState.new (sample_rate now0 : ℚ) : BPMState :=
  { sample_rate := sample_rate,
    buffer_size := ratToUsize (sample_rate * (1/10)),
    audio_buffer := [], onset_threshold := 3/10, onset_history := [],
    last_onset_time := now0, bpm_history := [], current_bpm := 120,
    confidence := 0, tempo_stability_threshold := 7/10, min_bpm := 60,
    max_bpm := 200, analysis_window := 8 }

/-- One step of the sample-buffer update loop in
`BPMDetector::process_audio`: push the sample, then pop the front while the
buffer exceeds `buffer_size` (at most one pop per push). -/
def pushSample (buffer_size : ℕ) (buf : List ℚ) (x : ℚ) : List ℚ :=
  let b := buf ++ [x]
  if b.length > buffer_size then b.tail else b

/-- `BPMDetector::find_tempo_intervals` group update: find the first group
whose running-mean interval is within ±20% (ratio in (0.8, 1.2)) and fold
the interval into its running mean, else append a fresh group. -/
def addToGroups : List (ℚ × ℕ) → ℚ → List (ℚ × ℕ)
  | [], interval => [(interval, 1)]
  | (gi, count) :: rest, interval =>
    let ratio := interval / gi
    if ratio > 8/10 ∧ ratio < 12/10 then
      ((gi * (count : ℚ) + interval) / ((count : ℚ) + 1), count + 1) :: rest
    else (gi, count) :: addToGroups rest interval

/-- `BPMDetector::find_tempo_intervals`. -/
def find_tempo_intervals (intervals : List ℚ) : List ℚ :=
  let groups := intervals.foldl addToGroups []
  let min_support := intervals.length / 4
  (groups.filter (fun g => g.2 ≥ min_support)).map (fun g => g.1)

/-- The candidate-accumulation loop of `BPMDetector::calculate_bpm`: for
each tempo interval push the direct BPM, the half-time BPM and the
double-time BPM, each only when inside `[min_bpm, max_bpm]`. -/
def bpmCandidates (min_bpm max_bpm : ℚ) (tempo_intervals : List ℚ) :
    List ℚ :=
  tempo_intervals.foldl
    (fun acc interval =>
      let bpm := 60 / interval
      let acc1 := if bpm ≥ min_bpm ∧ bpm ≤ max_bpm then acc ++ [bpm] else acc
      let half_bpm := bpm / 2
      let double_bpm := bpm * 2
      let acc2 :=
        if half_bpm ≥ min_bpm ∧ half_bpm ≤ max_bpm then acc1 ++ [half_bpm]
        else acc1
      if double_bpm ≥ min_bpm ∧ double_bpm ≤ max_bpm then acc2 ++ [double_bpm]
      else acc2)
    []

/-- Histogram update for `BPMDetector::find_most_stable_bpm`, over an
association list in insertion order (a Rust `HashMap` iterates in an
unspecified order; no claim depends on the tie-breaking this induces). -/
def histAdd : List (ℤ × ℕ) → ℤ → List (ℤ × ℕ)
  | [], k => [(k, 1)]
  | (k0, c) :: rest, k =>
    if k0 = k then (k0, c + 1) :: rest else (k0, c) :: histAdd rest k

/-- `BPMDetector::find_most_stable_bpm`: histogram the candidates by
`bpm.round() as i32` clamped into `[60, 200]`, then take the entry with the
highest count (`max_by_key` keeps the last maximum in iteration order). -/
def find_most_stable_bpm (candidates : List ℚ) : Option ℚ :=
  if candidates.isEmpty then none
  else
    let histogram :=
      candidates.foldl (fun h bpm => histAdd h (min (max (round bpm) 60) 200))
        []
    (histogram.foldl
        (fun best kv =>
          match best with
          | none => some kv
          | some b => if kv.2 ≥ b.2 then some kv else some b)
        none).map
      (fun kv => (kv.1 : ℚ))

/-- `BPMDetector::calculate_confidence`. -/
def calculate_confidence (candidates : List ℚ) (target_bpm : ℚ) : ℚ :=
  if candidates.isEmpty then 0
  else
    ((candidates.filter (fun bpm => |bpm - target_bpm| ≤ 5)).length : ℚ) /
      (candidates.length : ℚ)

/-- `BPMDetector::calculate_bpm` (mutates `current_bpm`, `confidence` and
`bpm_history` when a stable BPM is found). -/
def calculate_bpm (s : BPMState) : BPMState :=
  if s.onset_history.length < 4 then s
  else
    let intervals := (s.onset_history.zip s.onset_history.tail).map
      (fun p => p.2 - p.1)
    let tempo_intervals := find_tempo_intervals intervals
    let candidates := bpmCandidates s.min_bpm s.max_bpm tempo_intervals
    match find_most_stable_bpm candidates with
    | none => s
    | some best_bpm =>
      let hist0 := s.bpm_history ++ [best_bpm]
      let hist1 := if hist0.length > 16 then hist0.tail else hist0
      { s with current_bpm := best_bpm,
               confidence := calculate_confidence candidates best_bpm,
               bpm_history := hist1 }

/-- `BPMDetector::process_audio`, with the wall clock injected as `now` and
the result of `detect_onsets` injected as `onsets` (the onset detector is a
pure function of the sample buffer computed with `f32` trigonometry; the
theorems below quantify over every possible list of detected onset
timestamps, which covers every behavior of `detect_onsets`). Returns the
`BPMResult` together with the updated state. -/
def process_audio (s : BPMState) (samples onsets : List ℚ) (now : ℚ) :
    BPMResult × BPMState :=
  let buf := samples.foldl (pushSample s.buffer_size) s.audio_buffer
  let history0 := s.onset_history ++ onsets
  let last := onsets.getLast?.getD s.last_onset_time
  let cutoff := now - s.analysis_window
  let history1 := history0.dropWhile (fun t => t < cutoff)
  let s1 := { s with audio_buffer := buf, onset_history := history1,
                     last_onset_time := last }
  let s2 := if history1.length ≥ 4 then calculate_bpm s1 else s1
  ({ bpm := s2.current_bpm, confidence := s2.confidence,
     beat_detected := ¬ onsets.isEmpty,
     tempo_stable := s2.confidence > s.tempo_stability_threshold }, s2)

/-- TransitionEvent struct from `macro_state_engine.rs`. -/
structure TransitionEvent where
  from_pattern : PatternType
  to_pattern : PatternType
  from_palette : PaletteType
  to_palette : PaletteType
  trigger : TransitionTrigger
  timestamp : ℚ

/-- Mutable state of `MacroStateEngine` from `macro_state_engine.rs`. -/
structure EngineState where
  current_pattern : PatternType
  current_palette : PaletteType
  current_color_mode : ColorMode
  bpm : ℚ
  energy_level : ℚ
  mood : MusicMood
  last_beat_time : ℚ
  beat_history : List ℚ
  transition_in_progress : Bool
  transition_start_time : ℚ
  transition_duration : ℚ
  morph_factor : ℚ
  pattern_blacklist : List (String × ℚ)
  palette_blacklist : List (String × ℚ)
  blacklist_duration : ℚ
  pattern_history : List PatternType
  palette_history : List PaletteType
  transition_history : List TransitionEvent
  min_pattern_duration : ℚ
  max_pattern_duration : ℚ
  transition_probability : ℚ

/-- `MacroStateEngine::new()`, with the construction-time `Instant::now()`
injected as `now0`. -/
def EngineState.new (now0 : ℚ) : EngineState :=
  { current_pattern := .Plasma, current_palette := .Standard,
    current_color_mode := .Rainbow, bpm := 120, energy_level := 1/2,
    mood := .Melodic, last_beat_time := now0, beat_history := [],
    transition_in_progress := false, transition_start_time := now0,
    transition_duration := 2, morph_factor := 0, pattern_blacklist := [],
    palette_blacklist := [], blacklist_duration := 30,
    pattern_history := [], palette_history := [], transition_history := [],
    min_pattern_duration := 8, max_pattern_duration := 45,
    transition_probability := 3/10 }

/-- `MacroStateEngine::detect_mood`. -/
def detect_mood (bpm energy : ℚ) (bands : ℚ × ℚ × ℚ) : MusicMood :=
  let bass := bands.1
  let treble := bands.2.2
  if bpm > 140 ∧ energy > 7/10 then .Energetic
  else if bpm < 80 ∧ energy < 3/10 then .Ambient
  else if bass > 6/10 ∧ bpm > 100 ∧ bpm < 140 then .Rhythmic
  else if treble > 7/10 ∧ energy > 1/2 then .Chaotic
  else .Melodic

/-- `MacroStateEngine::is_blacklisted`. Note: the source consults
`self.pattern_blacklist` regardless of whether the queried name is a
pattern or a palette; `self.palette_blacklist` is never read anywhere in
the engine. -/
def is_blacklisted (s : EngineState) (name : String) (now : ℚ) : Bool :=
  match hmFind? s.pattern_blacklist name with
  | some blacklist_time => decide (now - blacklist_time < s.blacklist_duration)
  | none => false

/-- The `all_patterns` array of `MacroStateEngine::get_available_patterns`
(all 19 variants, in the order listed there). -/
def allPatterns : List PatternType :=
  [.Plasma, .Waves, .Ripples, .Vortex, .Noise, .Geometric, .Voronoi,
   .Truchet, .Hexagonal, .Interference, .Fractal, .Glitch, .Spiral, .Rings,
   .Grid, .Diamonds, .Sphere, .Octgrams, .WarpedFbm]

/-- The `all_palettes` array of `MacroStateEngine::get_available_palettes`
(all 16 variants, in the order listed there). -/
def allPalettes : List PaletteType :=
  [.Standard, .Blocks, .Circles, .Smooth, .Braille, .Geometric, .Mixed,
   .Dots, .Shades, .Lines, .Triangles, .Arrows, .Powerline, .BoxDraw,
   .Extended, .Simple]

/-- `MacroStateEngine::get_available_patterns`. -/
def get_available_patterns (s : EngineState) (now : ℚ) : List PatternType :=
  allPatterns.filter (fun p => ¬ is_blacklisted s (fmtPattern p) now)

/-- `MacroStateEngine::get_available_palettes`. The filter goes through
`is_blacklisted`, hence (as in the source) through the *pattern* blacklist.
-/
def get_available_palettes (s : EngineState) (now : ℚ) : List PaletteType :=
  allPalettes.filter (fun p => ¬ is_blacklisted s (fmtPalette p) now)

/-- `MacroStateEngine::select_from_preferred`, with the `DefaultHasher`
draw injected as `hashVal` (the code reduces the hash modulo the candidate
count). Returns `none` exactly when the candidate list is empty, where the
Rust code would panic on `% 0` / out-of-bounds indexing. -/
def select_from_preferred (available preferred : List PatternType)
    (hashVal : ℕ) : Option PatternType :=
  let candidates := available.filter (fun p => preferred.contains p)
  let candidates := if candidates.isEmpty then available else candidates
  candidates[hashVal % candidates.length]?

/-- The preferred-pattern table of
`select_ambient_pattern` / `select_energetic_pattern` /
`select_melodic_pattern` / `select_rhythmic_pattern` /
`select_chaotic_pattern`. -/
def preferredPatterns : MusicMood → List PatternType
  | .Ambient => [.Waves, .Ripples, .Vortex, .Noise]
  | .Energetic => [.Plasma, .Glitch, .Spiral, .Rings]
  | .Melodic => [.Plasma, .Waves, .Geometric, .Hexagonal]
  | .Rhythmic => [.Rings, .Grid, .Diamonds, .Octgrams]
  | .Chaotic => [.Fractal, .Voronoi, .Truchet, .WarpedFbm]

/-- `MacroStateEngine::select_next_pattern` (dispatches on the mood to the
per-mood selector, each of which calls `select_from_preferred`). -/
def select_next_pattern (s : EngineState) (now : ℚ) (hashVal : ℕ) :
    Option PatternType :=
  select_from_preferred (get_available_patterns s now)
    (preferredPatterns s.mood) hashVal

/-- `MacroStateEngine::select_next_palette`. Returns `none` exactly when
the mood-preferred palette is unavailable and `available_palettes` is
empty, where the Rust code would panic on `available_palettes[0]`. -/
def select_next_palette (s : EngineState) (now : ℚ) : Option PaletteType :=
  let available_palettes := get_available_palettes s now
  let selected : PaletteType :=
    match s.mood with
    | .Ambient => .Smooth
    | .Energetic => .Blocks
    | .Melodic => .Standard
    | .Rhythmic => .Geometric
    | .Chaotic => .Braille
  if available_palettes.contains selected then some selected
  else available_palettes[0]?

/-- `MacroStateEngine::select_next_color_mode`. -/
def select_next_color_mode (s : EngineState) : ColorMode :=
  match s.mood with
  | .Ambient => .Cool
  | .Energetic => .Neon
  | .Melodic => .Rainbow
  | .Rhythmic => .Cyberpunk
  | .Chaotic => .Warped

/-- `MacroStateEngine::check_beat_transition`. -/
def check_beat_transition (s : EngineState) (now : ℚ) : Bool :=
  if s.beat_history.length < 4 then false
  else
    let recent_beats := s.beat_history.filter (fun t => now - t < 4)
    if recent_beats.length ≥ 8 then
      let beat_interval := s.bpm / 60
      let phrase_length := beat_interval * 8
      match recent_beats.getLast? with
      | some last_beat => decide (now - last_beat > phrase_length * (8/10))
      | none => false
    else false

/-- `MacroStateEngine::check_energy_transition`. -/
def check_energy_transition (s : EngineState) : Bool :=
  if s.energy_level > 8/10 then true
  else if s.energy_level < 2/10 ∧ s.mood ≠ .Ambient then true
  else false

/-- `MacroStateEngine::check_mood_transition`. -/
def check_mood_transition (s : EngineState) (now : ℚ) : Bool :=
  let gated :=
    match s.transition_history.getLast? with
    | some last_transition => decide (now - last_transition.timestamp < 10)
    | none => false
  if gated then false
  else
    match s.mood with
    | .Chaotic => true
    | .Energetic => decide (s.energy_level > 7/10)
    | .Ambient => decide (s.energy_level < 3/10)
    | _ => false

/-- `MacroStateEngine::check_random_transition`, with the hash-derived
uniform draw injected as `randVal` (in the source,
`(hash % 1000) as f32 / 1000.0`). -/
def check_random_transition (s : EngineState) (randVal : ℚ) : Bool :=
  decide (randVal < s.transition_probability)

/-- `MacroStateEngine::should_transition`. -/
def should_transition (s : EngineState) (now randVal : ℚ) : Bool :=
  if s.transition_in_progress then false
  else
    let current_duration := now - s.transition_start_time
    if current_duration > s.max_pattern_duration then true
    else if current_duration < s.min_pattern_duration then false
    else
      check_beat_transition s now || check_energy_transition s ||
        check_mood_transition s now || check_random_transition s randVal

/-- `MacroStateEngine::determine_transition_trigger`. -/
def determine_transition_trigger (s : EngineState) (now : ℚ) :
    TransitionTrigger :=
  if check_beat_transition s now then .BeatDetected
  else if check_energy_transition s then .EnergyChange
  else if check_mood_transition s now then .MoodChange
  else .Random

/-- `MacroStateEngine::add_to_blacklist`: insert the *current* (i.e. just
updated) pattern and palette names keyed to `now`, then `retain` entries
with `now.elapsed() < blacklist_duration` — the source compares the
elapsed time of the freshly taken `now`, which is `now - now` here, not
the age of each entry, so the retain keeps every entry whenever the
blacklist duration is positive. -/
def add_to_blacklist (s : EngineState) (now : ℚ) : EngineState :=
  { s with
    pattern_blacklist :=
      (hmInsert s.pattern_blacklist (fmtPattern s.current_pattern)
          now).filter
        (fun _kv => decide (now - now < s.blacklist_duration)),
    palette_blacklist :=
      (hmInsert s.palette_blacklist (fmtPalette s.current_palette)
          now).filter
        (fun _kv => decide (now - now < s.blacklist_duration)) }

/-- `MacroStateEngine::initiate_transition`. `none` models the panic paths
of the selection helpers (empty candidate lists); on `some`, the new
pattern/palette/color-mode are committed, a `TransitionEvent` is logged
(bounded to 20 entries) and `add_to_blacklist` runs *after*
`current_pattern` / `current_palette` have been overwritten. -/
def initiate_transition (s : EngineState) (now : ℚ) (hashVal : ℕ) :
    Option EngineState :=
  let s1 := { s with transition_in_progress := true,
                     transition_start_time := now }
  match select_next_pattern s1 now hashVal, select_next_palette s1 now with
  | some new_pattern, some new_palette =>
    let new_color_mode := select_next_color_mode s1
    let transition : TransitionEvent :=
      { from_pattern := s1.current_pattern, to_pattern := new_pattern,
        from_palette := s1.current_palette, to_palette := new_palette,
        trigger := determine_transition_trigger s1 now, timestamp := now }
    let history0 := s1.transition_history ++ [transition]
    let history1 := if history0.length > 20 then history0.tail else history0
    let s2 := { s1 with transition_history := history1,
                        current_pattern := new_pattern,
                        current_palette := new_palette,
                        current_color_mode := new_color_mode }
    some (add_to_blacklist s2 now)
  | _, _ => none

/-- `MacroStateEngine::ease_in_out_cubic`. -/
def ease_in_out_cubic (t : ℚ) : ℚ :=
  if t < 1/2 then 4 * t * t * t
  else
    let f := 2 * t - 2
    1 + f * f * f / 2

/-- `MacroStateEngine::update_transition_state`. -/
def update_transition_state (s : EngineState) (now : ℚ) : EngineState :=
  if ¬ s.transition_in_progress then { s with morph_factor := 0 }
  else
    let elapsed := now - s.transition_start_time
    if elapsed ≥ s.transition_duration then
      { s with transition_in_progress := false, morph_factor := 1 }
    else
      { s with morph_factor :=
          ease_in_out_cubic (elapsed / s.transition_duration) }

/-- The beat-history update of `MacroStateEngine::update_audio_analysis`:
push the beat time, then pop the front while more than 32 entries remain.
-/
def pushBeat (history : List ℚ) (now : ℚ) : List ℚ :=
  let h := history ++ [now]
  if h.length > 32 then h.drop (h.length - 32) else h

/-- `MacroStateEngine::update_audio_analysis` — one full engine step, with
the wall clock injected as `now` and the two hash draws injected as
`randVal` / `hashVal`. The returned `Bool` records whether this step took
the `initiate_transition` branch; `none` models the panic paths inside
`initiate_transition`. -/
def update_audio_analysis (s : EngineState) (now bpm energy_level : ℚ)
    (beat_detected : Bool) (frequency_bands : ℚ × ℚ × ℚ)
    (randVal : ℚ) (hashVal : ℕ) : Option (EngineState × Bool) :=
  let s1 := { s with bpm := bpm, energy_level := energy_level,
                     mood := detect_mood bpm energy_level frequency_bands }
  let s2 :=
    if beat_detected then
      { s1 with last_beat_time := now,
                beat_history := pushBeat s1.beat_history now }
    else s1
  let s3 := update_transition_state s2 now
  if should_transition s3 now randVal then
    (initiate_transition s3 now hashVal).map (fun s4 => (s4, true))
  else some (s3, false)

/-- Engine state witnessing the palette-blacklist bug of claim C1: the
palette blacklist holds an unexpired entry for "Standard" (entered at time
100, queried at time 105, cooldown 30), the pattern blacklist is empty,
and the mood is the constructor default `Melodic`, whose preferred palette
is `Standard`. -/
def c1CexState : EngineState :=
  { EngineState.new 0 with palette_blacklist := [("Standard", 100)] }

/-- Morpher state witnessing the failed equivalence in claim C8: a
`BeatSync` morph of duration 2 started at time 0. -/
def c8CexState : MorpherState :=
  { morphing := true, morph_start_time := 0, morph_duration := 2,
    morph_progress := 0, source_pattern := .Plasma,
    target_pattern := .Waves, source_params := ShaderParams.default,
    target_params := ShaderParams.default, current_morph_type := .BeatSync }

/-- The pattern-blacklist invariant maintained by the engine: every key of
`pattern_blacklist` is the formatted name of some `PatternType` (the only
strings `add_to_blacklist` ever inserts there). -/
def PatternKeysInv (s : EngineState) : Prop :=
  ∀ kv ∈ s.pattern_blacklist, kv.1 ∈ allPatterns.map fmtPattern

/-- C9: for every bpm, energy and (bass, mid, treble) triple, the mood
classifier returns the first matching rule in the order: bpm>140 ∧
energy>0.7 → Energetic; else bpm<80 ∧ energy<0.3 → Ambient; else bass>0.6 ∧
100<bpm<140 → Rhythmic; else treble>0.7 ∧ energy>0.5 → Chaotic; else
Melodic. -/
theorem c9_mood_first_match (bpm energy : ℚ) (bands : ℚ × ℚ × ℚ) :
    (bpm > 140 ∧ energy > 7/10 →
      detect_mood bpm energy bands = .Energetic) ∧
    (¬(bpm > 140 ∧ energy > 7/10) → bpm < 80 ∧ energy < 3/10 →
      detect_mood bpm energy bands = .Ambient) ∧
    (¬(bpm > 140 ∧ energy > 7/10) → ¬(bpm < 80 ∧ energy < 3/10) →
      bands.1 > 6/10 ∧ 100 < bpm ∧ bpm < 140 →
      detect_mood bpm energy bands = .Rhythmic) ∧
    (¬(bpm > 140 ∧ energy > 7/10) → ¬(bpm < 80 ∧ energy < 3/10) →
      ¬(bands.1 > 6/10 ∧ 100 < bpm ∧ bpm < 140) →
      bands.2.2 > 7/10 ∧ energy > 1/2 →
      detect_mood bpm energy bands = .Chaotic) ∧
    (¬(bpm > 140 ∧ energy > 7/10) → ¬(bpm < 80 ∧ energy < 3/10) →
      ¬(bands.1 > 6/10 ∧ 100 < bpm ∧ bpm < 140) →
      ¬(bands.2.2 > 7/10 ∧ energy > 1/2) →
      detect_mood bpm energy bands = .Melodic) := by
  refine ⟨?_, ?_, ?_, ?_, ?_⟩ <;> intros <;> simp only [detect_mood] <;>
    split_ifs <;> tauto

/-- Witness for C9 at concrete inputs: a 150 BPM, energy 0.8 signal is
classified Energetic, and a quiet 70 BPM signal is classified Ambient. -/
theorem c9_mood_first_match_witness :
    detect_mood 150 (8/10) (0, 0, 0) = .Energetic ∧
    detect_mood 70 (1/10) (0, 0, 0) = .Ambient := by
  constructor
  · exact (c9_mood_first_match 150 (8/10) (0, 0, 0)).1 (by norm_num)
  · exact (c9_mood_first_match 70 (1/10) (0, 0, 0)).2.1 (by norm_num)
      (by norm_num)

/-- C4: for hues in [0, 360) and progress in [0, 1], the hue traversed by
`interpolate_hue` never exceeds `180·t` degrees (the shortest angular
path), and interpolating 350 → 10 at progress 0.5 yields 360, which is
equivalent to 0 degrees (mod 360) — not 180. -/
theorem c4_hue_shortest_path :
    (∀ h1 h2 t : ℚ, 0 ≤ h1 → h1 < 360 → 0 ≤ h2 → h2 < 360 → 0 ≤ t →
      t ≤ 1 →
      |PatternMorpher.interpolate_hue h1 h2 t - h1| ≤ 180 * t) ∧
    PatternMorpher.interpolate_hue 350 10 (1/2) = 360 ∧
    PatternMorpher.interpolate_hue 350 10 (1/2) ≠ 180 := by
  refine ⟨?_, by norm_num [PatternMorpher.interpolate_hue],
    by norm_num [PatternMorpher.interpolate_hue]⟩
  intro h1 h2 t hl1 hu1 hl2 hu2 ht0 ht1
  simp only [PatternMorpher.interpolate_hue]
  split_ifs with hgt hlt
  · rw [abs_le]; constructor <;> nlinarith
  · rw [abs_le]; constructor <;> nlinarith
  · rw [abs_le]; constructor <;> nlinarith

/-- Witness for C4: the 350 → 10 interpolation at progress 0.5 moves only
10 degrees, within the 90-degree bound the theorem gives. -/
theorem c4_hue_shortest_path_witness :
    |PatternMorpher.interpolate_hue 350 10 (1/2) - 350| ≤ 180 * (1/2) :=
  c4_hue_shortest_path.1 350 10 (1/2) (by norm_num) (by norm_num)
    (by norm_num) (by norm_num) (by norm_num) (by norm_num)

/-- C6: for every extractor state, every spectrum oracle, every primitive
model and every delta-time, `analyze` on the empty chunk returns the
all-zero / false `AudioFeatures` and leaves the state untouched (the
function is total, so no error can be raised). -/
theorem c6_empty_chunk_default (sq pw : ℚ → ℚ)
    (spectrum : List ℚ → List ℚ) (st : AnalyzerState) (delta_time : ℚ) :
    analyze sq pw spectrum st [] delta_time = (AudioFeatures.default, st) ∧
    AudioFeatures.default.bass = 0 ∧ AudioFeatures.default.mid = 0 ∧
    AudioFeatures.default.treble = 0 ∧ AudioFeatures.default.overall = 0 ∧
    AudioFeatures.default.beat_strength = 0 ∧
    AudioFeatures.default.is_drop = false :=
  ⟨rfl, rfl, rfl, rfl, rfl, rfl, rfl⟩

/-- C7: whenever the onset history, after appending this call's onsets and
expiring entries older than the analysis window, still holds fewer than 4
onsets, `process_audio` reports the previously held bpm and confidence and
leaves those state fields unchanged. -/
theorem c7_insufficient_onsets_retain (s : BPMState)
    (samples onsets : List ℚ) (now : ℚ)
    (h : ((s.onset_history ++ onsets).dropWhile
        (fun t => t < now - s.analysis_window)).length < 4) :
    (process_audio s samples onsets now).1.bpm = s.current_bpm ∧
    (process_audio s samples onsets now).1.confidence = s.confidence ∧
    (process_audio s samples onsets now).2.current_bpm = s.current_bpm ∧
    (process_audio s samples onsets now).2.confidence = s.confidence := by
  have hn : ¬ ((s.onset_history ++ onsets).dropWhile
      (fun t => t < now - s.analysis_window)).length ≥ 4 := by omega
  simp only [process_audio, hn, if_false, ite_false]
  simp

/-- Witness for C7: a freshly constructed detector processing an empty
chunk with no detected onsets keeps bpm 120 and confidence 0. -/
theorem c7_insufficient_onsets_retain_witness :
    (process_audio (BPMState.new 44100 0) [] [] 0).1.bpm
        = (BPMState.new 44100 0).current_bpm ∧
    (process_audio (BPMState.new 44100 0) [] [] 0).1.confidence
        = (BPMState.new 44100 0).confidence ∧
    (process_audio (BPMState.new 44100 0) [] [] 0).2.current_bpm
        = (BPMState.new 44100 0).current_bpm ∧
    (process_audio (BPMState.new 44100 0) [] [] 0).2.confidence
        = (BPMState.new 44100 0).confidence :=
  c7_insufficient_onsets_retain (BPMState.new 44100 0) [] [] 0
    (by simp [BPMState.new])

/-- C8 counterexample to the claimed equivalence "progress == 1.0 once
elapsed time reaches the morph duration": for a `BeatSync` morph with no
beat on the tick, at elapsed time exactly equal to the 2-second duration
the reported progress is 0.8, not 1.0, and the morphing flag stays set. -/
theorem c8_elapsed_duration_not_complete :
    (PatternMorpher.update_morph c8CexState 2 120 (1/2) false).1 = 4/5 ∧
    (PatternMorpher.update_morph c8CexState 2 120 (1/2) false).2.morphing
      = true ∧
    c8CexState.morph_start_time = 0 ∧ c8CexState.morph_duration = 2 := by
  norm_num [PatternMorpher.update_morph, PatternMorpher.beat_sync_morphing,
    c8CexState, rclamp]

/-- C8 (amended): once `update_morph` reports progress 1.0 the morphing
flag is cleared, every further `update_morph` call reports 1.0 and leaves
the state unchanged, and `get_morphed_params` returns exactly the target
configuration; and whenever no morph is in progress `get_morphed_params`
is a passthrough returning the target configuration. (The amendment drops
the claimed equivalence with "elapsed ≥ duration", which holds only for
the Linear and Smooth laws; see the counterexample.) -/
theorem c8_progress_one_locks_target :
    (∀ (s : MorpherState) (now bpm energy : ℚ) (beat : Bool),
      (PatternMorpher.update_morph s now bpm energy beat).1 = 1 →
      (PatternMorpher.update_morph s now bpm energy beat).2.morphing
          = false ∧
      PatternMorpher.get_morphed_params
          (PatternMorpher.update_morph s now bpm energy beat).2
        = (PatternMorpher.update_morph s now bpm energy beat).2.target_params
          ∧
      (∀ (now2 bpm2 energy2 : ℚ) (beat2 : Bool),
        PatternMorpher.update_morph
            (PatternMorpher.update_morph s now bpm energy beat).2
            now2 bpm2 energy2 beat2
          = (1, (PatternMorpher.update_morph s now bpm energy beat).2))) ∧
    (∀ s : MorpherState, s.morphing = false →
      PatternMorpher.get_morphed_params s = s.target_params) := by
  have hpass : ∀ s : MorpherState, s.morphing = false →
      PatternMorpher.get_morphed_params s = s.target_params := by
    intro s hs
    simp [PatternMorpher.get_morphed_params, hs]
  have hupd : ∀ (s : MorpherState) (now bpm energy : ℚ) (beat : Bool),
      s.morphing = false →
      PatternMorpher.update_morph s now bpm energy beat = (1, s) := by
    intro s now bpm energy beat hs
    simp [PatternMorpher.update_morph, hs]
  refine ⟨?_, hpass⟩
  intro s now bpm energy beat hone
  by_cases hm : s.morphing = false
  · have h2 : (PatternMorpher.update_morph s now bpm energy beat).2 = s := by
      rw [hupd s now bpm energy beat hm]
    rw [h2]
    exact ⟨hm, hpass s hm, fun a b c d => hupd s a b c d hm⟩
  · have hm1 : s.morphing = true := by
      cases h : s.morphing
      · exact absurd h hm
      · rfl
    have hres : (PatternMorpher.update_morph s now bpm energy beat).2.morphing
        = false := by
      simp only [PatternMorpher.update_morph, hm1, Bool.true_eq_false,
        not_false_eq_true, not_true_eq_false, if_false, ite_false]
        at hone ⊢
      split_ifs at hone ⊢ with hp
      · rfl
      · dsimp only at hone
        exact absurd hone.ge hp
    refine ⟨hres, hpass _ hres, ?_⟩
    intro now2 bpm2 energy2 beat2
    exact hupd _ now2 bpm2 energy2 beat2 hres

/-- Witness for C8: a non-morphing state (fresh `c8CexState` with the flag
cleared) reports progress 1 and the locked-target behavior follows from
the theorem. -/
theorem c8_progress_one_locks_target_witness :
    PatternMorpher.get_morphed_params
        (PatternMorpher.update_morph
          { c8CexState with morphing := false } 3 120 (1/2) false).2
      = (PatternMorpher.update_morph
          { c8CexState with morphing := false } 3 120 (1/2) false).2.target_params :=
  (c8_progress_one_locks_target.1 { c8CexState with morphing := false }
      3 120 (1/2) false
      (by simp [PatternMorpher.update_morph])).2.1

/-- Looking up the freshly inserted key in the association-list map returns
the freshly inserted value. -/
theorem hmFind?_insert_self (m : List (String × ℚ)) (k : String) (v : ℚ) :
    hmFind? (hmInsert m k v) k = some v := by
  simp [hmInsert, hmFind?]

/-- Filtering by a constantly-true decidable proposition keeps every
element (the shape of the `retain` call in `add_to_blacklist`). -/
theorem filter_decide_true {α : Type} (l : List α) {p : Prop} [Decidable p]
    (hp : p) : l.filter (fun _ => decide p) = l := by
  induction l with
  | nil => rfl
  | cons a t ih => simp [List.filter_cons, decide_eq_true hp, ih]

/-- A key that differs from every key of the map is absent from it. -/
theorem hmFind?_eq_none (m : List (String × ℚ)) (k : String)
    (h : ∀ kv ∈ m, kv.1 ≠ k) : hmFind? m k = none := by
  induction m with
  | nil => rfl
  | cons a t ih =>
    simp only [hmFind?]
    rw [if_neg (h a (by simp))]
    exact ih fun kv hkv => h kv (by simp [hkv])

/-- C1: at the failing input, `select_next_palette` returns `Standard`
even though the palette blacklist holds an unexpired entry for
"Standard" — `is_blacklisted` consults only `pattern_blacklist`, for
palettes as well as patterns, so `palette_blacklist` is never read. -/
theorem c1_blacklisted_palette_selected :
    select_next_palette c1CexState 105 = some .Standard ∧
    hmFind? c1CexState.palette_blacklist "Standard" = some 100 ∧
    ((105:ℚ) - 100 < c1CexState.blacklist_duration) ∧
    c1CexState.mood = .Melodic := by
  refine ⟨?_, ?_, ?_, rfl⟩
  · simp [select_next_palette, c1CexState, EngineState.new,
      get_available_palettes, allPalettes, is_blacklisted, hmFind?,
      fmtPalette]
  · simp [c1CexState, EngineState.new, hmFind?]
  · norm_num [c1CexState, EngineState.new]

/-- C2 counterexample: from the freshly constructed engine (current
pattern `Plasma`, current palette `Standard`, empty blacklists), the
transition at time 10 with selection draw 1 switches to pattern `Waves`,
and afterwards the vacated pattern `Plasma` has no blacklist entry at all,
while the newly selected `Waves` carries the fresh timestamp-10 entry:
`add_to_blacklist` runs after `current_pattern`/`current_palette` are
overwritten, so it blacklists the new selection, not the vacated one. -/
theorem c2_vacated_pattern_not_blacklisted :
    (EngineState.new 0).current_pattern = .Plasma ∧
    (initiate_transition (EngineState.new 0) 10 1).map
        (fun sF => (hmFind? sF.pattern_blacklist "Plasma",
          hmFind? sF.pattern_blacklist "Waves", sF.current_pattern,
          hmFind? sF.palette_blacklist "Standard", sF.current_palette))
      = some (none, some 10, .Waves, some 10, .Standard) := by
  refine ⟨rfl, ?_⟩
  simp [initiate_transition, EngineState.new, select_next_pattern,
    select_next_palette, select_from_preferred, get_available_patterns,
    get_available_palettes, allPatterns, allPalettes, preferredPatterns,
    is_blacklisted, hmFind?, hmInsert, add_to_blacklist, fmtPattern,
    fmtPalette, determine_transition_trigger, check_beat_transition,
    check_energy_transition, check_mood_transition, select_next_color_mode]

/-- C2 (amended): at transition time the engine blacklists the *newly
selected* (post-transition current) pattern and palette, keyed at the
transition instant and immediately reported as blacklisted by
`is_blacklisted`; the vacated pattern and palette receive no fresh entry
(see the counterexample, where the vacated pattern is absent from the
blacklist altogether). -/
theorem c2_new_selection_blacklisted (s : EngineState) (now : ℚ) (hv : ℕ)
    (sF : EngineState) (hdur : 0 < s.blacklist_duration)
    (heq : initiate_transition s now hv = some sF) :
    hmFind? sF.pattern_blacklist (fmtPattern sF.current_pattern)
        = some now ∧
    hmFind? sF.palette_blacklist (fmtPalette sF.current_palette)
        = some now ∧
    is_blacklisted sF (fmtPattern sF.current_pattern) now = true := by
  have hc : now - now < s.blacklist_duration := by simpa using hdur
  simp only [initiate_transition] at heq
  split at heq
  · next new_pattern new_palette h1 h2 =>
    injection heq with h3
    subst h3
    simp only [add_to_blacklist, is_blacklisted]
    rw [filter_decide_true _ hc, filter_decide_true _ hc]
    refine ⟨hmFind?_insert_self _ _ _, hmFind?_insert_self _ _ _, ?_⟩
    rw [hmFind?_insert_self]
    simpa using hdur
  · exact absurd heq (by simp)

/-- Witness for C2: the concrete transition of the counterexample state
satisfies the amended blacklisting property. -/
theorem c2_new_selection_blacklisted_witness :
    (initiate_transition (EngineState.new 0) 10 1).map
        (fun sF =>
          hmFind? sF.pattern_blacklist (fmtPattern sF.current_pattern))
      = some (some 10) := by
  cases hEq : initiate_transition (EngineState.new 0) 10 1 with
  | none =>
    exfalso
    have hev : (initiate_transition (EngineState.new 0) 10 1).isSome
        = true := by
      simp [initiate_transition, EngineState.new, select_next_pattern,
        select_next_palette, select_from_preferred, get_available_patterns,
        get_available_palettes, allPatterns, allPalettes,
        preferredPatterns, is_blacklisted, hmFind?, fmtPattern, fmtPalette]
    rw [hEq] at hev
    exact Bool.false_ne_true hev
  | some sF =>
    have := (c2_new_selection_blacklisted (EngineState.new 0) 10 1 sF
      (by norm_num [EngineState.new]) hEq).1
    simp [this]

/-- Every formatted pattern name is in the list of the 19 pattern names. -/
theorem fmtPattern_mem (p : PatternType) :
    fmtPattern p ∈ allPatterns.map fmtPattern := by
  cases p <;> simp [allPatterns]

/-- No palette other than `Geometric` shares its formatted name with any
pattern (the pattern and palette enums overlap only in `Geometric`). -/
theorem palette_name_not_pattern (p : PaletteType)
    (h : p ≠ PaletteType.Geometric) :
    fmtPalette p ∉ allPatterns.map fmtPattern := by
  cases p
  case Geometric => exact absurd rfl h
  all_goals decide

/-- Inserting a pattern-name key preserves the pattern-keys invariant of a
blacklist map. -/
theorem inv_hmInsert_pattern (bl : List (String × ℚ)) (p : PatternType)
    (v : ℚ) (h : ∀ kv ∈ bl, kv.1 ∈ allPatterns.map fmtPattern) :
    ∀ kv ∈ hmInsert bl (fmtPattern p) v,
      kv.1 ∈ allPatterns.map fmtPattern := by
  intro kv hkv
  simp only [hmInsert, List.mem_cons, List.mem_filter] at hkv
  rcases hkv with rfl | ⟨hmem, _⟩
  · exact fmtPattern_mem p
  · exact h kv hmem

/-- `update_transition_state` never touches the pattern blacklist. -/
theorem uts_pattern_blacklist (z : EngineState) (now : ℚ) :
    (update_transition_state z now).pattern_blacklist
      = z.pattern_blacklist := by
  simp only [update_transition_state]
  split_ifs <;> rfl

/-- `initiate_transition` preserves the pattern-keys invariant: the only
key it inserts into the pattern blacklist is the formatted name of the
newly selected pattern. -/
theorem initiate_preserves_inv (x : EngineState) (now : ℚ) (hv : ℕ)
    (s4 : EngineState) (hInv : PatternKeysInv x)
    (heq : initiate_transition x now hv = some s4) : PatternKeysInv s4 := by
  simp only [initiate_transition] at heq
  split at heq
  · next new_pattern new_palette h1 h2 =>
    injection heq with h3
    subst h3
    intro kv hkv
    simp only [add_to_blacklist] at hkv
    exact inv_hmInsert_pattern _ new_pattern now (fun kv2 hk2 => hInv kv2 hk2)
      kv (List.mem_of_mem_filter hkv)
  · exact absurd heq (by simp)

/-- C10: in every reachable engine state (captured by the invariant that
all pattern-blacklist keys are pattern names — true initially and
preserved by every engine step), every palette other than `Geometric`
survives the blacklist filter, so `get_available_palettes` is never empty
and the `available_palettes[0]` fallback of `select_next_palette` never
indexes an empty list (the selection always returns a value). -/
theorem c10_available_palettes_nonempty :
    (∀ t0 : ℚ, PatternKeysInv (EngineState.new t0)) ∧
    (∀ (s : EngineState) (now bpm energy : ℚ) (beat : Bool)
        (bands : ℚ × ℚ × ℚ) (rv : ℚ) (hv : ℕ) (sF : EngineState) (b : Bool),
      PatternKeysInv s →
      update_audio_analysis s now bpm energy beat bands rv hv
          = some (sF, b) →
      PatternKeysInv sF) ∧
    (∀ (s : EngineState) (now : ℚ), PatternKeysInv s →
      (∀ p ∈ allPalettes, p ≠ PaletteType.Geometric →
        p ∈ get_available_palettes s now) ∧
      get_available_palettes s now ≠ [] ∧
      (select_next_palette s now).isSome = true) := by
  refine ⟨?_, ?_, ?_⟩
  · intro t0 kv hkv
    simp [EngineState.new] at hkv
  · intro s now bpm energy beat bands rv hv sF b hInv heq
    have hblk : ∀ z : EngineState,
        (update_transition_state z now).pattern_blacklist
          = z.pattern_blacklist := fun z => uts_pattern_blacklist z now
    simp only [update_audio_analysis] at heq
    split at heq <;> split at heq
    all_goals
      first
      | (rcases Option.map_eq_some'.mp heq with ⟨s4, h4, h5⟩
         injection h5 with h5a h5b
         subst h5a
         refine initiate_preserves_inv _ now hv _ ?_ h4
         intro kv hkv
         rw [hblk] at hkv
         exact hInv kv hkv)
      | (injection heq with h5
         injection h5 with h5a h5b
         subst h5a
         intro kv hkv
         rw [hblk] at hkv
         exact hInv kv hkv)
  · intro s now hInv
    have hmem : ∀ p ∈ allPalettes, p ≠ PaletteType.Geometric →
        p ∈ get_available_palettes s now := by
      intro p hp hne
      have hnone : hmFind? s.pattern_blacklist (fmtPalette p) = none := by
        refine hmFind?_eq_none _ _ (fun kv hkv hk => ?_)
        exact palette_name_not_pattern p hne (hk ▸ hInv kv hkv)
      simp [get_available_palettes, List.mem_filter, hp, is_blacklisted,
        hnone]
    have hstd : PaletteType.Standard ∈ get_available_palettes s now :=
      hmem .Standard (by simp [allPalettes]) (by simp)
    have hne : get_available_palettes s now ≠ [] :=
      List.ne_nil_of_mem hstd
    refine ⟨hmem, hne, ?_⟩
    rcases hl : get_available_palettes s now with _ | ⟨a, t⟩
    · exact absurd hl hne
    · simp only [select_next_palette, hl]
      split_ifs <;> simp

/-- Witness for C10 at the freshly constructed engine: the invariant holds,
is preserved by a concrete step, and the palette list is non-empty with a
successful selection. -/
theorem c10_available_palettes_nonempty_witness :
    (PaletteType.Standard ∈ get_available_palettes (EngineState.new 0) 5) ∧
    get_available_palettes (EngineState.new 0) 5 ≠ [] ∧
    (select_next_palette (EngineState.new 0) 5).isSome = true := by
  have h := (c10_available_palettes_nonempty.2.2 (EngineState.new 0) 5
    (c10_available_palettes_nonempty.1 0))
  exact ⟨h.1 .Standard (by simp [allPalettes]) (by simp), h.2.1, h.2.2⟩

/-- `update_transition_state` never changes the transition start time. -/
theorem uts_start (z : EngineState) (now : ℚ) :
    (update_transition_state z now).transition_start_time
      = z.transition_start_time := by
  simp only [update_transition_state]
  split_ifs <;> rfl

/-- Once the elapsed time reaches the transition duration,
`update_transition_state` clears the in-progress flag (and keeps the start
time and the configured maximum duration). -/
theorem uts_forced (z : EngineState) (now : ℚ)
    (h : z.transition_duration ≤ now - z.transition_start_time) :
    (update_transition_state z now).transition_in_progress = false ∧
    (update_transition_state z now).transition_start_time
        = z.transition_start_time ∧
    (update_transition_state z now).max_pattern_duration
        = z.max_pattern_duration := by
  simp only [update_transition_state]
  split_ifs with h1
  · exact ⟨rfl, rfl, rfl⟩
  · refine ⟨?_, rfl, rfl⟩
    show z.transition_in_progress = false
    simpa using h1

/-- With no transition in progress and the maximum pattern duration
exceeded, `should_transition` fires unconditionally. -/
theorem should_forced (z : EngineState) (now rv : ℚ)
    (h1 : z.transition_in_progress = false)
    (h2 : now - z.transition_start_time > z.max_pattern_duration) :
    should_transition z now rv = true := by
  simp [should_transition, h1, h2]

/-- A successful `initiate_transition` marks the transition as in progress
and stamps the start time with the transition instant. -/
theorem initiate_fields (x : EngineState) (now : ℚ) (hv : ℕ)
    (s4 : EngineState) (heq : initiate_transition x now hv = some s4) :
    s4.transition_in_progress = true ∧ s4.transition_start_time = now := by
  simp only [initiate_transition] at heq
  split at heq
  · next np npal h1 h2 =>
    injection heq with h3
    subst h3
    exact ⟨rfl, rfl⟩
  · exact absurd heq (by simp)

/-- After a tick at `now` on a state whose transition fields carry the
constructor configuration and whose time-in-state exceeds the maximum,
`should_transition` evaluates to true on the post-`update_transition_state`
state. -/
theorem update_forced_aux (z : EngineState) (now rv : ℚ)
    (hmax : z.max_pattern_duration = 45) (hdur : z.transition_duration = 2)
    (hgt : now - z.transition_start_time > 45) :
    should_transition (update_transition_state z now) now rv = true := by
  have hle : z.transition_duration ≤ now - z.transition_start_time := by
    rw [hdur]; linarith
  obtain ⟨hA, hB, hC⟩ := uts_forced z now hle
  refine should_forced _ now rv hA ?_
  rw [hB, hC, hmax]
  exact hgt

/-- C5: (1) `should_transition` never fires before 8 seconds of
time-in-state (with the constructor's 8s/45s configuration), (2) a step
that initiates a transition stamps the new state's transition start time
with the step instant, (3) a step that does not initiate keeps the start
time unchanged — so two consecutive initiations are at least 8 seconds
apart — and (4) once time-in-state exceeds 45 seconds, any step that
returns a state initiates a transition. -/
theorem c5_transition_timing :
    (∀ (s : EngineState) (now rv : ℚ),
      s.min_pattern_duration = 8 → s.max_pattern_duration = 45 →
      should_transition s now rv = true →
      8 ≤ now - s.transition_start_time) ∧
    (∀ (s : EngineState) (now bpm energy : ℚ) (beat : Bool)
        (bands : ℚ × ℚ × ℚ) (rv : ℚ) (hv : ℕ) (sF : EngineState),
      update_audio_analysis s now bpm energy beat bands rv hv
          = some (sF, true) →
      sF.transition_in_progress = true ∧ sF.transition_start_time = now) ∧
    (∀ (s : EngineState) (now bpm energy : ℚ) (beat : Bool)
        (bands : ℚ × ℚ × ℚ) (rv : ℚ) (hv : ℕ) (sF : EngineState),
      update_audio_analysis s now bpm energy beat bands rv hv
          = some (sF, false) →
      sF.transition_start_time = s.transition_start_time) ∧
    (∀ (s : EngineState) (now bpm energy : ℚ) (beat : Bool)
        (bands : ℚ × ℚ × ℚ) (rv : ℚ) (hv : ℕ) (sF : EngineState)
        (b : Bool),
      s.max_pattern_duration = 45 → s.transition_duration = 2 →
      now - s.transition_start_time > 45 →
      update_audio_analysis s now bpm energy beat bands rv hv
          = some (sF, b) →
      b = true) := by
  refine ⟨?_, ?_, ?_, ?_⟩
  · intro s now rv hmin hmax hst
    simp only [should_transition] at hst
    split_ifs at hst with h1 h2 h3
    · rw [hmax] at h2; linarith
    · rw [hmin] at h3
      linarith [not_lt.mp h3]
  · intro s now bpm energy beat bands rv hv sF heq
    simp only [update_audio_analysis] at heq
    split at heq <;> split at heq
    all_goals
      first
      | (rcases Option.map_eq_some'.mp heq with ⟨s4, h4, h5⟩
         injection h5 with h5a h5b
         subst h5a
         exact initiate_fields _ now hv _ h4)
      | (injection heq with h5
         injection h5 with h5a h5b
         exact Bool.noConfusion h5b)
  · intro s now bpm energy beat bands rv hv sF heq
    simp only [update_audio_analysis] at heq
    split at heq <;> split at heq
    all_goals
      first
      | (rcases Option.map_eq_some'.mp heq with ⟨s4, h4, h5⟩
         injection h5 with h5a h5b
         exact Bool.noConfusion h5b)
      | (injection heq with h5
         injection h5 with h5a h5b
         subst h5a
         rw [uts_start])
  · intro s now bpm energy beat bands rv hv sF b hmax hdur hgt heq
    simp only [update_audio_analysis] at heq
    split at heq <;> split at heq
    all_goals
      first
      | (rcases Option.map_eq_some'.mp heq with ⟨s4, h4, h5⟩
         injection h5 with h5a h5b
         exact h5b.symm)
      | (exfalso
         rename_i hcond
         refine hcond (update_forced_aux _ now rv ?_ ?_ ?_)
         · exact hmax
         · exact hdur
         · exact hgt)

/-- Witness for C5: at the fresh engine and tick time 50 (time-in-state 50
exceeds 45), the firing bound holds and the step does initiate. -/
theorem c5_transition_timing_witness :
    (8:ℚ) ≤ 50 - (EngineState.new 0).transition_start_time ∧
    (update_audio_analysis (EngineState.new 0) 50 120 (1/2) false (0, 0, 0)
        1 0).map (fun r => r.2) = some true := by
  constructor
  · exact c5_transition_timing.1 (EngineState.new 0) 50 1 rfl rfl
      (by norm_num [should_transition, EngineState.new])
  · cases hEq : update_audio_analysis (EngineState.new 0) 50 120 (1/2)
        false (0, 0, 0) 1 0 with
    | none =>
      exfalso
      have hev : (update_audio_analysis (EngineState.new 0) 50 120 (1/2)
          false (0, 0, 0) 1 0).isSome = true := by
        norm_num [update_audio_analysis, EngineState.new,
          update_transition_state, should_transition, check_beat_transition,
          check_energy_transition, check_mood_transition,
          check_random_transition, detect_mood, initiate_transition,
          select_next_pattern, select_next_palette, select_from_preferred,
          get_available_patterns, get_available_palettes, allPatterns,
          allPalettes, preferredPatterns, is_blacklisted, hmFind?,
          fmtPattern, fmtPalette, determine_transition_trigger,
          add_to_blacklist, hmInsert]
      rw [hEq] at hev
      exact Bool.false_ne_true hev
    | some r =>
      have hb := c5_transition_timing.2.2.2 (EngineState.new 0) 50 120
        (1/2) false (0, 0, 0) 1 0 r.1 r.2 rfl rfl
        (by norm_num [EngineState.new]) (by rw [hEq])
      simp [hb]

/-- `ratSqrt` is nonnegative on nonnegative inputs (first half of
`SqrtModel`). -/
theorem ratSqrt_nonneg (x : ℚ) (hx : 0 ≤ x) : 0 ≤ ratSqrt x := by
  simp only [ratSqrt, if_pos hx]
  positivity

/-- `ratSqrt` is exact on perfect squares (second half of `SqrtModel`). -/
theorem ratSqrt_sq (x : ℚ) (hx : 0 ≤ x) : ratSqrt (x * x) = x := by
  have hxx : (0:ℚ) ≤ x * x := mul_nonneg hx hx
  have h0 : 0 ≤ x.num := Rat.num_nonneg.mpr hx
  obtain ⟨n, hn⟩ := Int.eq_ofNat_of_zero_le h0
  simp only [ratSqrt, if_pos hxx, Rat.mul_self_num, Rat.mul_self_den]
  have hnum : (x.num * x.num).toNat = n * n := by
    rw [hn]
    exact_mod_cast Int.toNat_ofNat (n * n)
  rw [hnum, Nat.sqrt_eq, Nat.sqrt_eq]
  have hcast : ((n : ℚ)) = (x.num : ℚ) := by exact_mod_cast hn.symm
  rw [hcast, Rat.num_div_den]

/-- The identity function satisfies `PowModel`. -/
theorem powModel_id : PowModel (fun x => x) := fun _ hx => hx

/-- `ratSqrt` satisfies `SqrtModel`. -/
theorem sqrtModel_ratSqrt : SqrtModel ratSqrt :=
  ⟨ratSqrt_nonneg, ratSqrt_sq⟩

/-- `get_band_energy` over a nonnegative magnitude spectrum lies in
`[0, 1]`. -/
theorem get_band_energy_bounds (mags : List ℚ) (hm : ∀ m ∈ mags, 0 ≤ m)
    (fmin fmax fres : ℚ) :
    0 ≤ get_band_energy mags fmin fmax fres ∧
      get_band_energy mags fmin fmax fres ≤ 1 := by
  simp only [get_band_energy]
  split_ifs with h
  · norm_num
  · refine ⟨le_min ?_ (by norm_num), min_le_right _ _⟩
    apply div_nonneg
    · apply List.sum_nonneg
      intro x hx
      exact hm x (List.mem_of_mem_drop (List.mem_of_mem_take hx))
    · positivity

/-- `apply_dynamics` maps a raw value in `[0, 1]` back into `[0, 1]` for
every peak and every `PowModel` expansion curve. -/
theorem apply_dynamics_bounds (pw : ℚ → ℚ) (hpw : PowModel pw)
    (raw peak : ℚ) (h0 : 0 ≤ raw) (h1 : raw ≤ 1) :
    0 ≤ apply_dynamics pw raw peak ∧ apply_dynamics pw raw peak ≤ 1 := by
  simp only [apply_dynamics]
  split_ifs with h h2
  · exact ⟨h0, h1⟩
  · have hpk : (0:ℚ) < peak := by
      push_neg at h
      linarith
    have hexp : 0 ≤ pw (raw / peak) := hpw _ (div_nonneg h0 hpk.le)
    refine ⟨le_min ?_ (by norm_num), min_le_right _ _⟩
    have hb : (0:ℚ) ≤ 1 + (raw / peak - 85/100) * 2 := by nlinarith
    exact mul_nonneg (mul_nonneg hexp hpk.le) hb
  · have hpk : (0:ℚ) < peak := by
      push_neg at h
      linarith
    have hexp : 0 ≤ pw (raw / peak) := hpw _ (div_nonneg h0 hpk.le)
    refine ⟨le_min ?_ (by norm_num), min_le_right _ _⟩
    exact mul_nonneg (mul_nonneg hexp hpk.le) (by norm_num)

/-- `calculate_energy_variance` lies in `[0, 1]` for every history and
every `SqrtModel` square root. -/
theorem variance_bounds (sq : ℚ → ℚ) (hsq : SqrtModel sq) (hist : List ℚ) :
    0 ≤ calculate_energy_variance sq hist ∧
      calculate_energy_variance sq hist ≤ 1 := by
  simp only [calculate_energy_variance]
  split_ifs with h
  · norm_num
  · refine ⟨le_min (hsq.1 _ ?_) (by norm_num), min_le_right _ _⟩
    apply div_nonneg
    · apply List.sum_nonneg
      intro x hx
      simp only [List.mem_map] at hx
      obtain ⟨y, _, rfl⟩ := hx
      exact mul_self_nonneg _
    · positivity

/-- A value in `[0, 1]` times a multiplier in `[1, 3/2]` lies in
`[0, 3/2]`. -/
theorem mul_bound_aux (v m : ℚ) (hv0 : 0 ≤ v) (hv1 : v ≤ 1) (hm0 : 1 ≤ m)
    (hm1 : m ≤ 3/2) : 0 ≤ v * m ∧ v * m ≤ 3/2 := by
  constructor <;> nlinarith

/-- `rclamp x lo hi` lies in `[lo, hi]` whenever `lo ≤ hi`. -/
theorem rclamp_bounds (x lo hi : ℚ) (h : lo ≤ hi) :
    lo ≤ rclamp x lo hi ∧ rclamp x lo hi ≤ hi :=
  ⟨le_min (le_max_right _ _) h, min_le_right _ _⟩

/-- A variance term bounded by 1 keeps the boost multiplier below 3/2. -/
theorem mult_le_aux (z : ℚ) (hz : z ≤ 1) : 1 + z * (1/2) ≤ 3/2 := by
  linarith

/-- C3 (amended): for every extractor state with a nonnegative retained
beat pulse, every nonnegative magnitude spectrum and every delta-time, the
band fields and the overall field of the returned `AudioFeatures` lie in
`[0, 3/2]` — the `[0, 1]`-clamped band values are multiplied by the
variance boost `1 + variance·0.5 ∈ [1, 3/2]` without re-clamping (see the
counterexample, which reaches 3/2) — while `beat_strength` does lie in
`[0, 1]`. -/
theorem c3_fields_bounded (sq pw : ℚ → ℚ) (hsq : SqrtModel sq)
    (hpw : PowModel pw) (st : AnalyzerState) (mags : List ℚ)
    (delta_time : ℚ) (hm : ∀ m ∈ mags, 0 ≤ m) (hbp : 0 ≤ st.beat_pulse) :
    (0 ≤ (analyze_with_fft sq pw st mags delta_time).1.bass ∧
      (analyze_with_fft sq pw st mags delta_time).1.bass ≤ 3/2) ∧
    (0 ≤ (analyze_with_fft sq pw st mags delta_time).1.mid ∧
      (analyze_with_fft sq pw st mags delta_time).1.mid ≤ 3/2) ∧
    (0 ≤ (analyze_with_fft sq pw st mags delta_time).1.treble ∧
      (analyze_with_fft sq pw st mags delta_time).1.treble ≤ 3/2) ∧
    (0 ≤ (analyze_with_fft sq pw st mags delta_time).1.overall ∧
      (analyze_with_fft sq pw st mags delta_time).1.overall ≤ 3/2) ∧
    (0 ≤ (analyze_with_fft sq pw st mags delta_time).1.beat_strength ∧
      (analyze_with_fft sq pw st mags delta_time).1.beat_strength ≤ 1)
    := by
  simp only [analyze_with_fft]
  have hfrB := get_band_energy_bounds mags hm 20 250
    (st.sample_rate / (mags.length : ℚ))
  have hfrM := get_band_energy_bounds mags hm 250 2000
    (st.sample_rate / (mags.length : ℚ))
  have hfrT := get_band_energy_bounds mags hm 2000 8000
    (st.sample_rate / (mags.length : ℚ))
  have hB := apply_dynamics_bounds pw hpw
    (get_band_energy mags 20 250 (st.sample_rate / (mags.length : ℚ)))
    (apply_envelope st.bass_peak
      (get_band_energy mags 20 250 (st.sample_rate / (mags.length : ℚ)))
      (98/100) (85/100)) hfrB.1 hfrB.2
  have hM := apply_dynamics_bounds pw hpw
    (get_band_energy mags 250 2000 (st.sample_rate / (mags.length : ℚ)))
    (apply_envelope st.mid_peak
      (get_band_energy mags 250 2000 (st.sample_rate / (mags.length : ℚ)))
      (98/100) (85/100)) hfrM.1 hfrM.2
  have hT := apply_dynamics_bounds pw hpw
    (get_band_energy mags 2000 8000 (st.sample_rate / (mags.length : ℚ)))
    (apply_envelope st.treble_peak
      (get_band_energy mags 2000 8000 (st.sample_rate / (mags.length : ℚ)))
      (98/100) (85/100)) hfrT.1 hfrT.2
  refine ⟨?_, ?_, ?_, ?_, ?_⟩
  · refine mul_bound_aux _ _ hB.1 hB.2 ?_ ?_
    · refine le_add_of_nonneg_right ?_
      exact mul_nonneg (variance_bounds sq hsq _).1 (by norm_num)
    · exact mult_le_aux _ (variance_bounds sq hsq _).2
  · refine mul_bound_aux _ _ hM.1 hM.2 ?_ ?_
    · refine le_add_of_nonneg_right ?_
      exact mul_nonneg (variance_bounds sq hsq _).1 (by norm_num)
    · exact mult_le_aux _ (variance_bounds sq hsq _).2
  · refine mul_bound_aux _ _ hT.1 hT.2 ?_ ?_
    · refine le_add_of_nonneg_right ?_
      exact mul_nonneg (variance_bounds sq hsq _).1 (by norm_num)
    · exact mult_le_aux _ (variance_bounds sq hsq _).2
  · refine mul_bound_aux _ _ ?_ ?_ ?_ ?_
    · have h1 := hB.1; have h2 := hM.1; have h3 := hT.1
      linarith
    · have h1 := hB.2; have h2 := hM.2; have h3 := hT.2
      linarith
    · refine le_add_of_nonneg_right ?_
      exact mul_nonneg (variance_bounds sq hsq _).1 (by norm_num)
    · exact mult_le_aux _ (variance_bounds sq hsq _).2
  · have hbs := rclamp_bounds
      ((get_band_energy mags 20 250 (st.sample_rate / (mags.length : ℚ))
        - st.previous_bass) * 10) 0 1 (by norm_num)
    have hp0 : (0:ℚ) ≤
        (if rclamp ((get_band_energy mags 20 250
              (st.sample_rate / (mags.length : ℚ)) - st.previous_bass) * 10)
            0 1 > 3/10 then (1:ℚ) else st.beat_pulse) := by
      split_ifs
      · norm_num
      · exact hbp
    constructor
    · refine le_min ?_ (by norm_num)
      nlinarith [hbs.1, hp0]
    · exact min_le_right _ _

set_option maxRecDepth 8000 in
/-- C3 counterexample: at the concrete state and spectrum of `c3CexState` /
`c3CexMags` the returned bass field equals 3/2 > 1 — so claim C3, which
asserts every numeric field lies in [0, 1], is false. The chosen input
never evaluates the abstracted `powf` curve (every `apply_dynamics` call
takes its `peak < 0.01` early return), and the square root is taken of the
perfect square 4, where every `SqrtModel` function — including the real
`f32` sqrt — returns exactly 2; so the refutation transfers to the real
primitives. -/
theorem c3_band_exceeds_one :
    (analyze_with_fft ratSqrt (fun x => x) c3CexState c3CexMags
        (1/60)).1.bass = 3/2 ∧ ¬ claimC3 := by
  have hs4 : ratSqrt 4 = 2 := by
    rw [show (4:ℚ) = 2 * 2 by norm_num, ratSqrt_sq 2 (by norm_num)]
  have hlen : c3CexMags.length = 256 := by
    simp [c3CexMags]
  have hbass : get_band_energy c3CexMags 20 250 4 = 1 := by
    norm_num [get_band_energy, ratToUsize, c3CexMags, List.length_replicate,
      List.drop_replicate, List.take_replicate, List.sum_replicate,
      smul_eq_mul, min_def, show Int.toNat 62 = 62 from rfl,
      show Int.toNat 5 = 5 from rfl]
  have hmid : get_band_energy c3CexMags 250 2000 4 = 1 := by
    norm_num [get_band_energy, ratToUsize, c3CexMags, List.length_replicate,
      List.drop_replicate, List.take_replicate, List.sum_replicate,
      smul_eq_mul, min_def, show Int.toNat 62 = 62 from rfl,
      show Int.toNat 500 = 500 from rfl]
  have htre : get_band_energy c3CexMags 2000 8000 4 = 0 := by
    norm_num [get_band_energy, ratToUsize, c3CexMags, List.length_replicate,
      List.drop_replicate, List.take_replicate, List.sum_replicate,
      smul_eq_mul, min_def, show Int.toNat 500 = 500 from rfl,
      show Int.toNat 2000 = 2000 from rfl]
  have heval : (analyze_with_fft ratSqrt (fun x => x) c3CexState c3CexMags
      (1/60)).1.bass = 3/2 := by
    norm_num [analyze_with_fft, c3CexState, hlen, hbass, hmid, htre,
      apply_envelope, apply_dynamics, calculate_energy_variance, rclamp,
      min_def, max_def, hs4, List.sum_cons, List.sum_nil, List.map_cons,
      List.map_nil]
  refine ⟨heval, fun hcl => ?_⟩
  have h := hcl ratSqrt (fun x => x) sqrtModel_ratSqrt powModel_id
    c3CexState c3CexMags (1/60) (fun m hm => ?_) (by norm_num [c3CexState])
  · have hb := h.1.2
    rw [heval] at hb
    norm_num at hb
  · have : m = 1 := by
      simpa [c3CexMags] using List.eq_of_mem_replicate hm
    rw [this]
    norm_num

/-- Witness for C3 (amended) at the freshly constructed analyzer with the
empty spectrum: the bounds follow from the theorem with the concrete
`ratSqrt` / identity models. -/
theorem c3_fields_bounded_witness :
    (0 ≤ (analyze_with_fft ratSqrt (fun x => x) (AnalyzerState.new 44100)
        [] 0).1.bass ∧
      (analyze_with_fft ratSqrt (fun x => x) (AnalyzerState.new 44100)
        [] 0).1.bass ≤ 3/2) ∧
    (0 ≤ (analyze_with_fft ratSqrt (fun x => x) (AnalyzerState.new 44100)
        [] 0).1.beat_strength ∧
      (analyze_with_fft ratSqrt (fun x => x) (AnalyzerState.new 44100)
        [] 0).1.beat_strength ≤ 1) := by
  have h := c3_fields_bounded ratSqrt (fun x => x) sqrtModel_ratSqrt
    powModel_id (AnalyzerState.new 44100) [] 0 (by simp)
    (by norm_num [AnalyzerState.new])
  exact ⟨h.1, h.2.2.2.2⟩
